import Mathlib

/-!
Shallow embedding of the Traffic repository (transit route scoring service).

The embedded modules are:
* `app/Services/google_maps_service.py` (`GoogleMapsService`)
* `app/Services/density_analyzer.py` (`DensityAnalyzer`)
* `app/Services/route_optimizer.py` (`RouteOptimizer`)

Python floats are modelled as exact rationals (`ℚ`), Python ints as `ℕ`/`ℤ`.
Raised exceptions are modelled with `Option` (`none` = the call raised).
The external mapping provider is modelled as an abstract oracle: the classes
take their collaborator as a constructor argument and only assume the
interface they invoke, so the oracle is a parameter of each embedded function.
-/

namespace Traffic

/-- Python `round(x, 2)`, idealized over exact rationals: round-half-even to
an integer. -/
def pyRoundInt (q : ℚ) : ℤ :=
  let f := ⌊q⌋
  let r := q - f
  if r < 1/2 then f
  else if 1/2 < r then f + 1
  else if f % 2 = 0 then f else f + 1

/-- Python `round(x, 2)`: round half even to two decimal places. -/
def round2 (q : ℚ) : ℚ := (pyRoundInt (q * 100) : ℚ) / 100

/-- Python `int(x)`: truncation toward zero. -/
def pyInt (q : ℚ) : ℤ := if 0 ≤ q then ⌊q⌋ else ⌈q⌉

/-- Model of `numpy.mean` of a list (sum divided by length). -/
def listMean (l : List ℚ) : ℚ := l.sum / (l.length : ℚ)

/-- Model of `numpy.var` of a list: population variance. -/
def listVar (l : List ℚ) : ℚ :=
  ((l.map (fun x => (x - listMean l) ^ 2)).sum) / (l.length : ℚ)

/-- Python `min` over a non-empty list, given as head plus tail. -/
def foldlMin (a : ℚ) (l : List ℚ) : ℚ := l.foldl min a

/-- Python `max` over a non-empty list, given as head plus tail. -/
def foldlMax (a : ℚ) (l : List ℚ) : ℚ := l.foldl max a

/-- Stable descending insertion used to model Python `list.sort(key=...,
reverse=True)` (Timsort is stable; for equal keys the original order is
kept, which this insertion preserves). -/
def insertDescBy {α : Type} (key : α → ℚ) (x : α) : List α → List α
  | [] => [x]
  | y :: ys => if key y ≤ key x then x :: y :: ys else y :: insertDescBy key x ys

/-- Stable descending sort by a rational key (model of Python sort with
`reverse=True`). -/
def sortDescBy {α : Type} (key : α → ℚ) (l : List α) : List α :=
  l.foldr (insertDescBy key) []

/-- Descending sortedness by a key. -/
def DescSorted {α : Type} (key : α → ℚ) (l : List α) : Prop :=
  l.Pairwise (fun a b => key b ≤ key a)

instance {α : Type} (key : α → ℚ) (l : List α) : Decidable (DescSorted key l) :=
  List.instDecidablePairwise l

/-! ## `app/Services/google_maps_service.py` -/

/-- The single leg of the provider response consumed by
`GoogleMapsService.get_traffic_conditions`: `leg["distance"]["meters"]`,
`leg["duration"]["seconds"]` and the optional `leg["durationWithTraffic"]`
(absent field defaults to the base duration via `.get`). -/
structure TrafficLeg where
  distance_meters : ℕ
  duration_seconds : ℕ
  duration_with_traffic_seconds : Option ℕ
deriving DecidableEq, Repr

/-- The dictionary returned by `GoogleMapsService.get_traffic_conditions`. -/
structure TrafficReport where
  distance_meters : ℕ
  duration_seconds : ℕ
  duration_with_traffic_seconds : ℕ
  traffic_factor : ℚ
  traffic_level : String
deriving DecidableEq, Repr

/-- Embeds `GoogleMapsService._classify_traffic`: breakpoints 1.1 / 1.3 / 1.6. -/
def GoogleMapsService.classify_traffic (traffic_factor : ℚ) : String :=
  if traffic_factor < 11/10 then "low"
  else if traffic_factor < 13/10 then "moderate"
  else if traffic_factor < 16/10 then "heavy"
  else "severe"

/-- Embeds `GoogleMapsService.get_traffic_conditions`, abstracted over the provider
response: `none` input models a non-success status or missing `routes`
(the Python code raises `ValueError` there, modelled by `none` output). -/
def GoogleMapsService.get_traffic_conditions (resp : Option TrafficLeg) :
    Option TrafficReport :=
  match resp with
  | none => none
  | some leg =>
    let duration := leg.duration_seconds
    let duration_in_traffic := leg.duration_with_traffic_seconds.getD duration
    let traffic_factor : ℚ :=
      if 0 < duration then (duration_in_traffic : ℚ) / (duration : ℚ) else 1
    some { distance_meters := leg.distance_meters
           duration_seconds := duration
           duration_with_traffic_seconds := duration_in_traffic
           traffic_factor := traffic_factor
           traffic_level := GoogleMapsService.classify_traffic traffic_factor }

/-! ## `app/Services/density_analyzer.py` -/

/-- A station record as normalized by the maps service. -/
structure Station where
  name : String
  rating : ℚ
deriving DecidableEq, Repr

/-- The collaborator interface that `DensityAnalyzer` assumes of the maps
service handed to its constructor: `client.places_nearby` (only the length
of its `results` list is used) and `get_nearby_transit_stations` (invoked
with a location, a radius and a transit type). -/
structure MapsOracle where
  places_nearby : ℚ × ℚ → ℤ → String → ℕ
  get_nearby_transit_stations : ℚ × ℚ → ℤ → String → List Station

/-- The fixed 9-category POI list of `calculate_area_density`. -/
def poi_types : List String :=
  ["school", "hospital", "shopping_mall",
   "restaurant", "cafe", "store",
   "university", "bank", "gym"]

/-- Embeds `DensityAnalyzer._classify_density`: thresholds 20 / 40 / 60 / 80. -/
def DensityAnalyzer.classify_density (score : ℚ) : String :=
  if score < 20 then "very_low"
  else if score < 40 then "low"
  else if score < 60 then "moderate"
  else if score < 80 then "high"
  else "very_high"

/-- Embeds `DensityAnalyzer._classify_connectivity`: thresholds 30 / 60 / 80. -/
def DensityAnalyzer.classify_connectivity (score : ℚ) : String :=
  if score < 30 then "poor"
  else if score < 60 then "fair"
  else if score < 80 then "good"
  else "excellent"

/-- Line 57 of `density_analyzer.py`:
`density_score = min(100, (total_pois / radius) * 10000)`. -/
def density_score_formula (total_pois : ℕ) (radius : ℤ) : ℚ :=
  min 100 (((total_pois : ℚ) / (radius : ℚ)) * 10000)

/-- The dictionary returned by `DensityAnalyzer.calculate_area_density`. -/
structure DensityResult where
  density_score : ℚ
  total_pois : ℕ
  poi_breakdown : List (String × ℕ)
  density_level : String
deriving DecidableEq, Repr

/-- Embeds `DensityAnalyzer.calculate_area_density`. A zero radius makes the Python
code raise `ZeroDivisionError` at `total_pois / radius`, modelled by `none`.
The returned `density_score` field is `round(density_score, 2)`; the level
is classified from the unrounded value (line 63). -/
def DensityAnalyzer.calculate_area_density (o : MapsOracle) (center : ℚ × ℚ)
    (radius : ℤ) : Option DensityResult :=
  if radius = 0 then none
  else
    let breakdown := poi_types.map (fun t => (t, o.places_nearby center radius t))
    let total_pois := (breakdown.map Prod.snd).sum
    let ds := density_score_formula total_pois radius
    some { density_score := round2 ds
           total_pois := total_pois
           poi_breakdown := breakdown
           density_level := DensityAnalyzer.classify_density ds }

/-- The dictionary returned by `DensityAnalyzer.analyze_route_corridor`. -/
structure CorridorResult where
  average_density : ℚ
  max_density : ℚ
  min_density : ℚ
  density_variance : ℚ
  density_samples : List ℚ
  uniformity : String
deriving DecidableEq, Repr

/-- Embeds `DensityAnalyzer.analyze_route_corridor`. Any failing per-waypoint
density call propagates; with an empty sample list `np.max([])` raises
`ValueError` (`zero-size array to reduction operation`), modelled by
`none`. -/
def DensityAnalyzer.analyze_route_corridor (o : MapsOracle)
    (waypoints : List (ℚ × ℚ)) (corridor_width : ℤ) : Option CorridorResult :=
  match waypoints.mapM (fun w =>
      (DensityAnalyzer.calculate_area_density o w corridor_width).map
        DensityResult.density_score) with
  | none => none
  | some densities =>
    match densities with
    | [] => none
    | d :: ds =>
      let avg := listMean (d :: ds)
      let dvar := listVar (d :: ds)
      some { average_density := round2 avg
             max_density := round2 (foldlMax d ds)
             min_density := round2 (foldlMin d ds)
             density_variance := round2 dvar
             density_samples := d :: ds
             uniformity := if dvar < 100 then "uniform" else "variable" }

/-- A high-demand zone record built by `identify_high_demand_zones`. -/
structure Zone where
  center : ℚ × ℚ
  density_score : ℚ
  grid_position : ℕ × ℕ
deriving DecidableEq, Repr

/-- Embeds `DensityAnalyzer.identify_high_demand_zones`. A zero grid size raises
`ZeroDivisionError` at the step computation; a zero cell radius makes every
per-cell density call raise; both are modelled by `none`. Cells with rounded
density score above 60 are kept and sorted by score descending (stable). -/
def DensityAnalyzer.identify_high_demand_zones (o : MapsOracle)
    (area_bounds : (ℚ × ℚ) × (ℚ × ℚ)) (grid_size : ℕ) : Option (List Zone) :=
  if grid_size = 0 then none
  else
    let lat_min := area_bounds.1.1
    let lng_min := area_bounds.1.2
    let lat_max := area_bounds.2.1
    let lng_max := area_bounds.2.2
    let lat_step := (lat_max - lat_min) / (grid_size : ℚ)
    let lng_step := (lng_max - lng_min) / (grid_size : ℚ)
    let radius := pyInt (max lat_step lng_step * 111000 / 2)
    let cells := (List.range grid_size).flatMap
      (fun i => (List.range grid_size).map (fun j => (i, j)))
    match cells.mapM (fun ij =>
        let center_lat := lat_min + ((ij.1 : ℚ) + 1/2) * lat_step
        let center_lng := lng_min + ((ij.2 : ℚ) + 1/2) * lng_step
        (DensityAnalyzer.calculate_area_density o (center_lat, center_lng) radius).map
          (fun d => ({ center := (center_lat, center_lng)
                       density_score := d.density_score
                       grid_position := ij } : Zone))) with
    | none => none
    | some zs =>
      some (sortDescBy Zone.density_score
        (zs.filter (fun z => decide (60 < z.density_score))))

/-- The transit types used by `calculate_connectivity_score` when none are
given. -/
def default_transit_types : List String :=
  ["bus_station", "subway_station", "light_rail_station"]

/-- The dictionary returned by `calculate_connectivity_score`. -/
structure ConnectivityResult where
  connectivity_score : ℕ
  total_stations : ℕ
  stations : List Station
  connectivity_level : String
deriving DecidableEq, Repr

/-- Embeds `DensityAnalyzer.calculate_connectivity_score`: one gateway call per
transit type at an 800 m radius, `connectivity_score = min(100,
total_stations * 10)`, at most 5 sample stations. -/
def DensityAnalyzer.calculate_connectivity_score (o : MapsOracle)
    (location : ℚ × ℚ) (transit_types : List String) : ConnectivityResult :=
  let per_type := transit_types.map
    (fun t => o.get_nearby_transit_stations location 800 t)
  let total_stations := (per_type.map List.length).sum
  let nearby_stations := per_type.flatten
  let connectivity_score := min 100 (total_stations * 10)
  { connectivity_score := connectivity_score
    total_stations := total_stations
    stations := nearby_stations.take 5
    connectivity_level :=
      DensityAnalyzer.classify_connectivity (connectivity_score : ℚ) }

/-! ## `app/Services/route_optimizer.py` -/

/-- One step of a transit route as normalized by
`GoogleMapsService.get_directions_transit`. -/
structure Step where
  travel_mode : String
  duration_seconds : ℚ
  distance_meters : ℚ
  instructions : String
deriving DecidableEq, Repr

/-- A transit route dictionary as normalized by
`GoogleMapsService.get_directions_transit` (display-text fields that the
optimizer never reads are omitted). -/
structure TransitRoute where
  summary : String
  total_duration_seconds : ℚ
  total_distance_meters : ℚ
  steps : List Step
deriving DecidableEq, Repr

/-- The scoring weights fixed in `RouteOptimizer.__init__`. -/
structure Weights where
  time : ℚ
  traffic : ℚ
  density : ℚ
  connectivity : ℚ
deriving DecidableEq, Repr

/-- Embeds `self.weights` of `RouteOptimizer.__init__`:
`{time: 0.35, traffic: 0.25, density: 0.20, connectivity: 0.20}`. -/
def RouteOptimizer.weights : Weights :=
  { time := 35/100, traffic := 25/100, density := 20/100, connectivity := 20/100 }

/-- The weighted sum of lines 122–127 of `route_optimizer.py`. -/
def RouteOptimizer.weighted_total (w : Weights)
    (time_score traffic_score density_score connectivity_score : ℚ) : ℚ :=
  time_score * w.time + traffic_score * w.traffic +
    density_score * w.density + connectivity_score * w.connectivity

/-- The `optimization_score` dictionary built by
`RouteOptimizer._evaluate_route` (including its `breakdown` sub-dictionary,
flattened). -/
structure OptimizationScore where
  total_score : ℚ
  time_score : ℚ
  traffic_score : ℚ
  density_score : ℚ
  connectivity_score : ℚ
  duration_minutes : ℚ
  traffic_level : String
  average_corridor_density : ℚ
  route_uniformity : String
deriving DecidableEq, Repr

/-- Embeds `RouteOptimizer._calculate_traffic_score`: the fixed
`score_map.get(traffic_level, 50)` lookup. -/
def RouteOptimizer.calculate_traffic_score (traffic_level : String) : ℚ :=
  if traffic_level = "low" then 95
  else if traffic_level = "moderate" then 70
  else if traffic_level = "heavy" then 40
  else if traffic_level = "severe" then 15
  else 50

/-- Embeds `RouteOptimizer._extract_waypoints`: the loop over `route["steps"]`
only executes `pass` and the accumulator list is returned unchanged
(the polyline decoding is an unimplemented TODO). -/
def RouteOptimizer.extract_waypoints (route : TransitRoute) : List (ℚ × ℚ) :=
  route.steps.foldl (fun waypoints _step => waypoints) ([] : List (ℚ × ℚ))

/-- Embeds `RouteOptimizer._generate_recommendation`: four tiers by total score.
The Python messages interpolate the rounded duration and the traffic level;
only the tier-identifying prefix of each message is modelled. -/
def RouteOptimizer.generate_recommendation (score : OptimizationScore) : String :=
  if 80 ≤ score.total_score then "⭐ Excellent choix!"
  else if 60 ≤ score.total_score then "✓ Bon itinéraire."
  else if 40 ≤ score.total_score then "↔ Option acceptable."
  else "⚠ Itinéraire moins optimal."

/-- The collaborator interface that `RouteOptimizer` assumes: the maps
service as invoked by the optimizer itself (`get_directions_transit` with
four arguments, `get_traffic_conditions` with three arguments — the
departure time is abstracted to a rational timestamp) and the maps oracle
behind the density analyzer. `get_traffic_conditions` returning `none`
models a falsy return, handled by the `if traffic_info else 50` default. -/
structure OptimizerEnv where
  get_directions_transit : ℚ × ℚ → ℚ × ℚ → ℚ → List String → List TransitRoute
  get_traffic_conditions : ℚ × ℚ → ℚ × ℚ → ℚ → Option TrafficReport
  density : MapsOracle

/-- The corridor analysis performed inside `_evaluate_route` (lines
111–112): waypoint extraction followed by
`analyze_route_corridor(waypoints)` at the default 500 m corridor width. -/
def RouteOptimizer.evaluate_route_corridor (env : OptimizerEnv)
    (route : TransitRoute) : Option CorridorResult :=
  DensityAnalyzer.analyze_route_corridor env.density
    (RouteOptimizer.extract_waypoints route) 500

/-- Embeds `RouteOptimizer._evaluate_route`. The corridor analysis raising
(which it does whenever the waypoint list is empty) aborts the evaluation,
modelled by `none`; the connectivity and total-score computations of lines
116–141 only happen afterwards. -/
def RouteOptimizer.evaluate_route (env : OptimizerEnv) (route : TransitRoute)
    (origin destination : ℚ × ℚ) (departure_time : ℚ) : Option OptimizationScore :=
  let duration := route.total_duration_seconds
  let time_score := max 0 (100 - duration / 60)
  let traffic_info := env.get_traffic_conditions origin destination departure_time
  let traffic_score :=
    match traffic_info with
    | some ti => RouteOptimizer.calculate_traffic_score ti.traffic_level
    | none => 50
  match RouteOptimizer.evaluate_route_corridor env route with
  | none => none
  | some density_analysis =>
    let density_score := density_analysis.average_density
    let origin_connectivity :=
      DensityAnalyzer.calculate_connectivity_score env.density origin
        default_transit_types
    let dest_connectivity :=
      DensityAnalyzer.calculate_connectivity_score env.density destination
        default_transit_types
    let connectivity_score : ℚ :=
      ((origin_connectivity.connectivity_score : ℚ) +
        (dest_connectivity.connectivity_score : ℚ)) / 2
    let total_score := RouteOptimizer.weighted_total RouteOptimizer.weights
      time_score traffic_score density_score connectivity_score
    some { total_score := round2 total_score
           time_score := round2 time_score
           traffic_score := round2 traffic_score
           density_score := round2 density_score
           connectivity_score := round2 connectivity_score
           duration_minutes := duration / 60
           traffic_level :=
             match traffic_info with
             | some ti => ti.traffic_level
             | none => "unknown"
           average_corridor_density := density_analysis.average_density
           route_uniformity := density_analysis.uniformity }

/-- A route annotated in place by `find_optimal_routes` with its
`optimization_score` and `recommendation` keys. -/
structure ScoredRoute where
  route : TransitRoute
  optimization_score : OptimizationScore
  recommendation : String
deriving DecidableEq, Repr

/-- The sort key of line 77: `x["optimization_score"]["total_score"]`. -/
def scoreKey (r : ScoredRoute) : ℚ := r.optimization_score.total_score

/-- Embeds `RouteOptimizer.find_optimal_routes`: fetch transit routes, return `[]`
if there are none, otherwise evaluate each route (an exception in any
evaluation aborts the call, modelled by `none`) and sort by total score
descending. -/
def RouteOptimizer.find_optimal_routes (env : OptimizerEnv)
    (origin destination : ℚ × ℚ) (departure_time : ℚ)
    (transit_modes : List String) : Option (List ScoredRoute) :=
  let routes := env.get_directions_transit origin destination departure_time
    transit_modes
  if routes.isEmpty then some []
  else
    match routes.mapM (fun r =>
        (RouteOptimizer.evaluate_route env r origin destination departure_time).map
          (fun s => ({ route := r, optimization_score := s
                       recommendation := RouteOptimizer.generate_recommendation s }
                     : ScoredRoute))) with
    | none => none
    | some evaluated => some (sortDescBy scoreKey evaluated)

/-- The status-bearing result of `RouteOptimizer.suggest_new_route`. -/
inductive Suggestion where
  | insufficient_data (message : String)
  | success (vehicle_type : String) (suggested_stops : List Zone)
      (rationale : String) (expected_coverage : ℚ) (priority : String)
deriving DecidableEq, Repr

/-- Lines 235–251 of `route_optimizer.py`: the part of `suggest_new_route`
that runs on the identified high-demand zone list. Fewer than two zones
gives the `insufficient_data` status, otherwise the top five zones become
suggested stops, their average density score the expected coverage, with
priority `high` exactly when more than 10 zones were found. -/
def RouteOptimizer.suggest_from_zones (vehicle_type : String)
    (high_demand : List Zone) : Suggestion :=
  if high_demand.length < 2 then
    Suggestion.insufficient_data "Pas assez de zones à forte demande identifiées"
  else
    let top_zones := high_demand.take 5
    Suggestion.success vehicle_type top_zones
      ("Itinéraire proposé desservant " ++ toString top_zones.length ++
        " zones à haute densité")
      (((top_zones.map Zone.density_score).sum) / (top_zones.length : ℚ))
      (if 10 < high_demand.length then "high" else "medium")

/-- Embeds `RouteOptimizer.suggest_new_route`: identify high-demand zones on an
8×8 grid (an exception there propagates, modelled by `none`), then build
the suggestion from the zone list. -/
def RouteOptimizer.suggest_new_route (env : OptimizerEnv)
    (area_bounds : (ℚ × ℚ) × (ℚ × ℚ)) (vehicle_type : String) :
    Option Suggestion :=
  (DensityAnalyzer.identify_high_demand_zones env.density area_bounds 8).map
    (RouteOptimizer.suggest_from_zones vehicle_type)

/-- The comparative summary of `RouteOptimizer.compare_routes`. The delta
between the first route and the mean of the rest appears inside the
recommendation f-string in the Python code; it is modelled as the `delta`
field. -/
inductive ComparisonResult where
  | error (msg : String)
  | ok (best_route_index : ℕ) (best_route_summary : String)
      (score_min score_max score_average delta : ℚ)
deriving DecidableEq, Repr

/-- Embeds `RouteOptimizer.compare_routes`: error-as-value on an empty list,
otherwise the first route is reported as best together with min / max /
mean of all total scores and the delta against the mean of the rest. -/
def RouteOptimizer.compare_routes (routes : List ScoredRoute) : ComparisonResult :=
  match routes with
  | [] => ComparisonResult.error "No routes to compare"
  | best :: rest =>
    let s0 := scoreKey best
    let tail_scores := rest.map scoreKey
    ComparisonResult.ok 0 best.route.summary
      (foldlMin s0 tail_scores)
      (foldlMax s0 tail_scores)
      (listMean (s0 :: tail_scores))
      (if rest.isEmpty then 0 else s0 - listMean tail_scores)

/-! ## Concrete fixtures used to evaluate the embedded operations -/

/-- A maps oracle whose POI search finds 100 results per category around two
grid-cell centers and nothing elsewhere, and which finds no stations. -/
def o0 : MapsOracle :=
  { places_nearby := fun c _ _ =>
      if c = ((1 : ℚ)/2, (1 : ℚ)/2) ∨ c = ((1 : ℚ)/2, (3 : ℚ)/2) then 100 else 0
    get_nearby_transit_stations := fun _ _ _ => [] }

/-- An area whose 8×8 grid cells have unit angular spans. -/
def bounds0 : (ℚ × ℚ) × (ℚ × ℚ) := ((0, 0), (8, 8))

/-- The two qualifying zones that `identify_high_demand_zones` finds for
`o0` on `bounds0` (density 100 at cells (0,0) and (0,1)). -/
def zones0 : List Zone :=
  [{ center := (1/2, 1/2), density_score := 100, grid_position := (0, 0) },
   { center := (1/2, 3/2), density_score := 100, grid_position := (0, 1) }]

/-- A sample station. -/
def station0 : Station := { name := "Gare Centrale", rating := 4 }

/-- A maps oracle finding 4 + 3 + 3 = 10 stations across the three default
transit types. -/
def o10 : MapsOracle :=
  { places_nearby := fun _ _ _ => 0
    get_nearby_transit_stations := fun _ _ t =>
      if t = "bus_station" then List.replicate 4 station0
      else List.replicate 3 station0 }

/-- A maps oracle finding 5 + 5 + 5 = 15 stations across the three default
transit types. -/
def o15 : MapsOracle :=
  { places_nearby := fun _ _ _ => 0
    get_nearby_transit_stations := fun _ _ _ => List.replicate 5 station0 }

/-- A concrete transit route (10 minutes). -/
def route0 : TransitRoute :=
  { summary := "Ligne A", total_duration_seconds := 600
    total_distance_meters := 5000, steps := [] }

/-- A second concrete transit route. -/
def route1 : TransitRoute :=
  { summary := "Ligne B", total_duration_seconds := 1200
    total_distance_meters := 7000, steps := [] }

/-- An optimizer environment whose gateway returns exactly one transit
route. -/
def envC1 : OptimizerEnv :=
  { get_directions_transit := fun _ _ _ _ => [route0]
    get_traffic_conditions := fun _ _ _ => none
    density := o0 }

/-- An optimizer environment whose gateway returns no transit routes. -/
def env0 : OptimizerEnv :=
  { get_directions_transit := fun _ _ _ _ => []
    get_traffic_conditions := fun _ _ _ => none
    density := o0 }

/-- A concrete optimization score with total 80. -/
def score80 : OptimizationScore :=
  { total_score := 80, time_score := 90, traffic_score := 95
    density_score := 50, connectivity_score := 60, duration_minutes := 10
    traffic_level := "low", average_corridor_density := 50
    route_uniformity := "uniform" }

/-- A concrete optimization score with total 60. -/
def score60 : OptimizationScore :=
  { total_score := 60, time_score := 80, traffic_score := 70
    density_score := 40, connectivity_score := 30, duration_minutes := 20
    traffic_level := "moderate", average_corridor_density := 40
    route_uniformity := "variable" }

/-- A scored route with total score 80. -/
def sr1 : ScoredRoute :=
  { route := route0, optimization_score := score80
    recommendation := "⭐ Excellent choix!" }

/-- A scored route with total score 60. -/
def sr2 : ScoredRoute :=
  { route := route1, optimization_score := score60
    recommendation := "✓ Bon itinéraire." }

/-! ## Helper lemmas -/

theorem foldlMin_mem (l : List ℚ) (a : ℚ) : foldlMin a l = a ∨ foldlMin a l ∈ l := by
  induction l generalizing a with
  | nil => exact Or.inl rfl
  | cons x xs ih =>
    have hv : foldlMin a (x :: xs) = foldlMin (min a x) xs := rfl
    rcases ih (min a x) with h | h
    · rcases min_choice a x with hm | hm
      · exact Or.inl (by rw [hv, h, hm])
      · exact Or.inr (by rw [hv, h, hm]; exact List.mem_cons_self x xs)
    · exact Or.inr (by rw [hv]; exact List.mem_cons_of_mem x h)

theorem foldlMin_le (l : List ℚ) (a : ℚ) :
    foldlMin a l ≤ a ∧ ∀ x ∈ l, foldlMin a l ≤ x := by
  induction l generalizing a with
  | nil => exact ⟨le_refl a, by simp⟩
  | cons y ys ih =>
    obtain ⟨h1, h2⟩ := ih (min a y)
    refine ⟨le_trans h1 (min_le_left a y), ?_⟩
    intro x hx
    rcases List.mem_cons.mp hx with rfl | hx
    · exact le_trans h1 (min_le_right a x)
    · exact h2 x hx

theorem foldlMax_mem (l : List ℚ) (a : ℚ) : foldlMax a l = a ∨ foldlMax a l ∈ l := by
  induction l generalizing a with
  | nil => exact Or.inl rfl
  | cons x xs ih =>
    have hv : foldlMax a (x :: xs) = foldlMax (max a x) xs := rfl
    rcases ih (max a x) with h | h
    · rcases max_choice a x with hm | hm
      · exact Or.inl (by rw [hv, h, hm])
      · exact Or.inr (by rw [hv, h, hm]; exact List.mem_cons_self x xs)
    · exact Or.inr (by rw [hv]; exact List.mem_cons_of_mem x h)

theorem le_foldlMax (l : List ℚ) (a : ℚ) :
    a ≤ foldlMax a l ∧ ∀ x ∈ l, x ≤ foldlMax a l := by
  induction l generalizing a with
  | nil => exact ⟨le_refl a, by simp⟩
  | cons y ys ih =>
    obtain ⟨h1, h2⟩ := ih (max a y)
    refine ⟨le_trans (le_max_left a y) h1, ?_⟩
    intro x hx
    rcases List.mem_cons.mp hx with rfl | hx
    · exact le_trans (le_max_right a x) h1
    · exact h2 x hx

theorem foldlMax_of_all_le (l : List ℚ) (a : ℚ) (h : ∀ x ∈ l, x ≤ a) :
    foldlMax a l = a := by
  induction l with
  | nil => rfl
  | cons y ys ih =>
    have hy : y ≤ a := h y (List.mem_cons_self y ys)
    have hv : foldlMax a (y :: ys) = foldlMax (max a y) ys := rfl
    rw [hv, max_eq_left hy]
    exact ih (fun x hx => h x (List.mem_cons_of_mem y hx))

theorem insertDescBy_perm {α : Type} (key : α → ℚ) (x : α) (l : List α) :
    List.Perm (insertDescBy key x l) (x :: l) := by
  induction l with
  | nil => exact List.Perm.refl _
  | cons y ys ih =>
    by_cases h : key y ≤ key x
    · simp [insertDescBy, h]
    · simp only [insertDescBy, if_neg h]
      exact List.Perm.trans (List.Perm.cons y ih) (List.Perm.swap x y ys)

theorem sortDescBy_perm {α : Type} (key : α → ℚ) (l : List α) :
    List.Perm (sortDescBy key l) l := by
  induction l with
  | nil => exact List.Perm.refl _
  | cons x xs ih =>
    exact List.Perm.trans (insertDescBy_perm key x (sortDescBy key xs)) (List.Perm.cons x ih)

theorem insertDescBy_sorted {α : Type} (key : α → ℚ) (x : α) (l : List α)
    (h : DescSorted key l) : DescSorted key (insertDescBy key x l) := by
  induction l with
  | nil => simp [insertDescBy, DescSorted]
  | cons y ys ih =>
    rcases List.pairwise_cons.mp h with ⟨hy, hys⟩
    by_cases hxy : key y ≤ key x
    · simp only [insertDescBy, if_pos hxy]
      refine List.pairwise_cons.mpr ⟨?_, h⟩
      intro b hb
      rcases List.mem_cons.mp hb with rfl | hb
      · exact hxy
      · exact le_trans (hy b hb) hxy
    · simp only [insertDescBy, if_neg hxy]
      refine List.pairwise_cons.mpr ⟨?_, ih hys⟩
      intro b hb
      have hb' : b = x ∨ b ∈ ys :=
        List.mem_cons.mp ((insertDescBy_perm key x ys).mem_iff.mp hb)
      rcases hb' with rfl | hb'
      · exact le_of_lt (lt_of_not_le hxy)
      · exact hy b hb'

theorem sortDescBy_sorted {α : Type} (key : α → ℚ) (l : List α) :
    DescSorted key (sortDescBy key l) := by
  induction l with
  | nil => simp [sortDescBy, DescSorted]
  | cons x xs ih => exact insertDescBy_sorted key x (sortDescBy key xs) ih

theorem foldl_const_acc {α β : Type} (l : List β) (a : α) :
    l.foldl (fun w _ => w) a = a := by
  induction l generalizing a with
  | nil => rfl
  | cons x xs ih => exact ih a

theorem identify_sorted (o : MapsOracle) (b : (ℚ × ℚ) × (ℚ × ℚ)) (g : ℕ)
    (zones : List Zone)
    (h : DensityAnalyzer.identify_high_demand_zones o b g = some zones) :
    DescSorted Zone.density_score zones := by
  unfold DensityAnalyzer.identify_high_demand_zones at h
  by_cases hg : g = 0
  · rw [if_pos hg] at h
    exact absurd h (by simp)
  · rw [if_neg hg] at h
    simp only [] at h
    split at h
    · exact absurd h (by simp)
    · obtain rfl := Option.some.inj h
      exact sortDescBy_sorted _ _

/-! ## Claim theorems -/

/-- C3: the fixed scoring weights of `RouteOptimizer` are
{time: 0.35, traffic: 0.25, density: 0.20, connectivity: 0.20}, they sum to
exactly 1, and with sub-scores time=100, traffic=95, density=50,
connectivity=50 the weighted total score equals exactly 78.75. -/
theorem weights_spec :
    RouteOptimizer.weights.time = 35/100 ∧
    RouteOptimizer.weights.traffic = 25/100 ∧
    RouteOptimizer.weights.density = 20/100 ∧
    RouteOptimizer.weights.connectivity = 20/100 ∧
    RouteOptimizer.weights.time + RouteOptimizer.weights.traffic +
      RouteOptimizer.weights.density + RouteOptimizer.weights.connectivity = 1 ∧
    RouteOptimizer.weighted_total RouteOptimizer.weights 100 95 50 50 = 7875/100 := by
  refine ⟨rfl, rfl, rfl, rfl, ?_, ?_⟩
  · norm_num [RouteOptimizer.weights]
  · norm_num [RouteOptimizer.weighted_total, RouteOptimizer.weights]

/-- C4: for every route record, `_extract_waypoints` returns the empty
list, so the corridor-density scoring step of `_evaluate_route` always
receives an empty waypoint list. -/
theorem extract_waypoints_stub (route : TransitRoute) (env : OptimizerEnv) :
    RouteOptimizer.extract_waypoints route = [] ∧
    RouteOptimizer.evaluate_route_corridor env route =
      DensityAnalyzer.analyze_route_corridor env.density [] 500 := by
  have hw : RouteOptimizer.extract_waypoints route = [] :=
    foldl_const_acc route.steps []
  exact ⟨hw, by rw [RouteOptimizer.evaluate_route_corridor, hw]⟩

/-- C7: `get_traffic_conditions` computes the traffic ratio as the
traffic-adjusted duration divided by the base duration, with ratio 1
whenever the base duration is 0, and the ratio is classified by the fixed
breakpoints 1.1/1.3/1.6: 1.05 → low, 1.15 → moderate, 1.4 → heavy,
2.0 → severe. -/
theorem get_traffic_conditions_spec (leg : TrafficLeg) :
    (GoogleMapsService.get_traffic_conditions (some leg)).map
        TrafficReport.traffic_factor
      = some (if leg.duration_seconds = 0 then 1
          else ((leg.duration_with_traffic_seconds.getD leg.duration_seconds : ℚ) /
            (leg.duration_seconds : ℚ))) ∧
    (GoogleMapsService.get_traffic_conditions (some leg)).map
        TrafficReport.traffic_level
      = some (GoogleMapsService.classify_traffic
          (if leg.duration_seconds = 0 then 1
           else ((leg.duration_with_traffic_seconds.getD leg.duration_seconds : ℚ) /
             (leg.duration_seconds : ℚ)))) ∧
    GoogleMapsService.classify_traffic (105/100) = "low" ∧
    GoogleMapsService.classify_traffic (115/100) = "moderate" ∧
    GoogleMapsService.classify_traffic (14/10) = "heavy" ∧
    GoogleMapsService.classify_traffic 2 = "severe" := by
  refine ⟨?_, ?_, by norm_num [GoogleMapsService.classify_traffic],
    by norm_num [GoogleMapsService.classify_traffic],
    by norm_num [GoogleMapsService.classify_traffic],
    by norm_num [GoogleMapsService.classify_traffic]⟩ <;>
  · rcases Nat.eq_zero_or_pos leg.duration_seconds with h0 | hpos
    · simp [GoogleMapsService.get_traffic_conditions, h0]
    · simp [GoogleMapsService.get_traffic_conditions, hpos,
        Nat.pos_iff_ne_zero.mp hpos]

/-- C8: density classification is exhaustive over the thresholds
20/40/60/80 with five pairwise distinct labels, and it is half-open:
score 20 maps to low (not very_low), 59.99 to moderate, 60 to high. -/
theorem classify_density_spec :
    (∀ s : ℚ, DensityAnalyzer.classify_density s = "very_low" ∨
      DensityAnalyzer.classify_density s = "low" ∨
      DensityAnalyzer.classify_density s = "moderate" ∨
      DensityAnalyzer.classify_density s = "high" ∨
      DensityAnalyzer.classify_density s = "very_high") ∧
    DensityAnalyzer.classify_density 20 = "low" ∧
    DensityAnalyzer.classify_density (5999/100) = "moderate" ∧
    DensityAnalyzer.classify_density 60 = "high" ∧
    List.Nodup ["very_low", "low", "moderate", "high", "very_high"] := by
  refine ⟨?_, by norm_num [DensityAnalyzer.classify_density],
    by norm_num [DensityAnalyzer.classify_density],
    by norm_num [DensityAnalyzer.classify_density], by decide⟩
  intro s
  by_cases h1 : s < 20
  · simp [DensityAnalyzer.classify_density, h1]
  by_cases h2 : s < 40
  · simp [DensityAnalyzer.classify_density, h1, h2]
  by_cases h3 : s < 60
  · simp [DensityAnalyzer.classify_density, h1, h2, h3]
  by_cases h4 : s < 80
  · simp [DensityAnalyzer.classify_density, h1, h2, h3, h4]
  · simp [DensityAnalyzer.classify_density, h1, h2, h3, h4]

/-- C2: for every POI count c ≥ 0 and radius r > 0, the density score
computed by `calculate_area_density` (line 57) equals
min(100, (c / r) · 10000); it lies in [0, 100], is monotone non-decreasing
in c and non-increasing in r, and the returned `density_score` field is
the rounding of that value at the record's own POI total. -/
theorem density_score_formula_spec (o : MapsOracle) (center : ℚ × ℚ)
    (c : ℕ) (r : ℤ) (hr : 0 < r) :
    density_score_formula c r = min 100 (((c : ℚ) / (r : ℚ)) * 10000) ∧
    0 ≤ density_score_formula c r ∧
    density_score_formula c r ≤ 100 ∧
    (∀ c1 c2 : ℕ, c1 ≤ c2 →
      density_score_formula c1 r ≤ density_score_formula c2 r) ∧
    (∀ r1 r2 : ℤ, 0 < r1 → r1 ≤ r2 →
      density_score_formula c r2 ≤ density_score_formula c r1) ∧
    (∀ rec : DensityResult,
      DensityAnalyzer.calculate_area_density o center r = some rec →
      rec.density_score = round2 (density_score_formula rec.total_pois r)) := by
  have hr' : (0 : ℚ) < (r : ℚ) := by exact_mod_cast hr
  refine ⟨rfl, ?_, ?_, ?_, ?_, ?_⟩
  · refine le_min (by norm_num) ?_
    exact mul_nonneg (div_nonneg (Nat.cast_nonneg c) (le_of_lt hr')) (by norm_num)
  · exact min_le_left _ _
  · intro c1 c2 h
    unfold density_score_formula
    have h' : (c1 : ℚ) ≤ (c2 : ℚ) := by exact_mod_cast h
    gcongr
  · intro r1 r2 h1 h12
    unfold density_score_formula
    have h1' : (0 : ℚ) < (r1 : ℚ) := by exact_mod_cast h1
    have h12' : (r1 : ℚ) ≤ (r2 : ℚ) := by exact_mod_cast h12
    have hc : (0 : ℚ) ≤ (c : ℚ) := Nat.cast_nonneg c
    gcongr
  · intro rec hrec
    have hne : r ≠ 0 := by omega
    unfold DensityAnalyzer.calculate_area_density at hrec
    rw [if_neg hne] at hrec
    obtain rfl := Option.some.inj hrec
    rfl

/-- C2 witness: the theorem applied at radius 1000 and POI count 5. -/
theorem density_score_formula_witness :
    (0 : ℤ) < 1000 ∧ 0 ≤ density_score_formula 5 1000 ∧
    density_score_formula 5 1000 ≤ 100 :=
  ⟨by decide,
   (density_score_formula_spec o0 (0, 0) 5 1000 (by decide)).2.1,
   (density_score_formula_spec o0 (0, 0) 5 1000 (by decide)).2.2.1⟩

/-- C9: for every station count, `calculate_connectivity_score` returns
score min(100, stations · 10) ∈ [0, 100] and at most 5 sample stations;
10 total stations give exactly 100 and 15 still give 100. -/
theorem calculate_connectivity_score_spec :
    (∀ (o : MapsOracle) (loc : ℚ × ℚ) (ts : List String),
      (DensityAnalyzer.calculate_connectivity_score o loc ts).connectivity_score
        = min 100
          ((DensityAnalyzer.calculate_connectivity_score o loc ts).total_stations
            * 10) ∧
      0 ≤ (DensityAnalyzer.calculate_connectivity_score o loc ts).connectivity_score ∧
      (DensityAnalyzer.calculate_connectivity_score o loc ts).connectivity_score
        ≤ 100 ∧
      (DensityAnalyzer.calculate_connectivity_score o loc ts).stations.length ≤ 5) ∧
    (DensityAnalyzer.calculate_connectivity_score o10 (0, 0)
        default_transit_types).total_stations = 10 ∧
    (DensityAnalyzer.calculate_connectivity_score o10 (0, 0)
        default_transit_types).connectivity_score = 100 ∧
    (DensityAnalyzer.calculate_connectivity_score o15 (0, 0)
        default_transit_types).total_stations = 15 ∧
    (DensityAnalyzer.calculate_connectivity_score o15 (0, 0)
        default_transit_types).connectivity_score = 100 := by
  refine ⟨?_, rfl, rfl, rfl, rfl⟩
  intro o loc ts
  refine ⟨rfl, Nat.zero_le _, Nat.min_le_left _ _, ?_⟩
  simp [DensityAnalyzer.calculate_connectivity_score, List.length_take]

/-- C10: when the gateway returns zero transit routes,
`find_optimal_routes` returns the empty list and does not raise. -/
theorem find_optimal_routes_empty_spec (env : OptimizerEnv)
    (origin destination : ℚ × ℚ) (dep : ℚ) (modes : List String)
    (h : env.get_directions_transit origin destination dep modes = []) :
    RouteOptimizer.find_optimal_routes env origin destination dep modes
      = some [] := by
  unfold RouteOptimizer.find_optimal_routes
  rw [h]
  rfl

/-- C10 witness: the theorem applied to a gateway with no routes. -/
theorem find_optimal_routes_empty_witness :
    RouteOptimizer.find_optimal_routes env0 (0, 0) (1, 1) 0 ["bus"] = some [] :=
  find_optimal_routes_empty_spec env0 (0, 0) (1, 1) 0 ["bus"] rfl

/-- C1 (evaluation of the code at the failing input): with the gateway
returning one transit route, `find_optimal_routes` raises instead of
returning an annotated sorted route list, because `_extract_waypoints`
returns the empty list and `analyze_route_corridor` then applies `np.max`
to an empty sample array, which raises `ValueError`. -/
theorem find_optimal_routes_crashes_on_nonempty :
    RouteOptimizer.find_optimal_routes envC1 (0, 0) (1, 1) 0 ["bus"] = none := rfl

/-- C5: `suggest_new_route` maps the zone-suggestion step over the
(descending-sorted) result of `identify_high_demand_zones` at grid size 8;
fewer than 2 zones yield the `insufficient_data` status (not an error),
and 2 or more yield a success whose stops are the top 5 zones, whose
expected coverage is the mean of those zones' density scores, and whose
priority is `high` exactly when more than 10 zones were found. -/
theorem suggest_new_route_spec (env : OptimizerEnv)
    (area_bounds : (ℚ × ℚ) × (ℚ × ℚ)) (vt : String) :
    RouteOptimizer.suggest_new_route env area_bounds vt =
      (DensityAnalyzer.identify_high_demand_zones env.density area_bounds 8).map
        (RouteOptimizer.suggest_from_zones vt) ∧
    (∀ zs, DensityAnalyzer.identify_high_demand_zones env.density area_bounds 8
        = some zs → DescSorted Zone.density_score zs) ∧
    (∀ zs : List Zone, zs.length < 2 →
      RouteOptimizer.suggest_from_zones vt zs =
        Suggestion.insufficient_data
          "Pas assez de zones à forte demande identifiées") ∧
    (∀ zs : List Zone, 2 ≤ zs.length →
      RouteOptimizer.suggest_from_zones vt zs =
        Suggestion.success vt (zs.take 5)
          ("Itinéraire proposé desservant " ++ toString (zs.take 5).length ++
            " zones à haute densité")
          (((zs.take 5).map Zone.density_score).sum / ((zs.take 5).length : ℚ))
          (if 10 < zs.length then "high" else "medium")) := by
  refine ⟨rfl, ?_, ?_, ?_⟩
  · intro zs h
    exact identify_sorted env.density area_bounds 8 zs h
  · intro zs h
    unfold RouteOptimizer.suggest_from_zones
    rw [if_pos h]
  · intro zs h
    unfold RouteOptimizer.suggest_from_zones
    rw [if_neg (by omega)]

/-- C5 witness: the theorem applied to the two-zone list found for the
fixture oracle, yielding a success suggestion with medium priority. -/
theorem suggest_new_route_witness :
    2 ≤ zones0.length ∧
    RouteOptimizer.suggest_from_zones "bus" zones0 =
      Suggestion.success "bus" (zones0.take 5)
        ("Itinéraire proposé desservant " ++ toString (zones0.take 5).length ++
          " zones à haute densité")
        (((zones0.take 5).map Zone.density_score).sum / ((zones0.take 5).length : ℚ))
        (if 10 < zones0.length then "high" else "medium") :=
  ⟨by decide, (suggest_new_route_spec env0 bounds0 "bus").2.2.2 zones0 (by decide)⟩

/-- C6: `compare_routes` on the empty list returns the error-as-value
record (never a thrown exception); on any non-empty (descending-sorted)
scored-route list it reports the best (first) route's summary, the minimum,
maximum and mean of all total scores, and the delta between the best score
and the mean of the remaining scores. -/
theorem compare_routes_spec (routes : List ScoredRoute)
    (hs : DescSorted scoreKey routes) :
    (routes = [] →
      RouteOptimizer.compare_routes routes =
        ComparisonResult.error "No routes to compare") ∧
    (∀ b rest, routes = b :: rest →
      ∃ mn mx,
        RouteOptimizer.compare_routes routes =
          ComparisonResult.ok 0 b.route.summary mn mx
            ((routes.map scoreKey).sum / (routes.length : ℚ))
            (if rest.isEmpty then 0
             else scoreKey b - (rest.map scoreKey).sum / (rest.length : ℚ)) ∧
        mn ∈ routes.map scoreKey ∧
        (∀ s ∈ routes.map scoreKey, mn ≤ s) ∧
        mx ∈ routes.map scoreKey ∧
        (∀ s ∈ routes.map scoreKey, s ≤ mx) ∧
        mx = scoreKey b) := by
  constructor
  · intro h
    subst h
    rfl
  · intro b rest hbr
    subst hbr
    obtain ⟨hb, -⟩ := List.pairwise_cons.mp hs
    refine ⟨foldlMin (scoreKey b) (rest.map scoreKey),
            foldlMax (scoreKey b) (rest.map scoreKey), ?_, ?_, ?_, ?_, ?_, ?_⟩
    · simp [RouteOptimizer.compare_routes, listMean, List.length_map]
    · rcases foldlMin_mem (rest.map scoreKey) (scoreKey b) with h | h <;>
        simp [List.map_cons, h]
    · intro s hsmem
      rw [List.map_cons, List.mem_cons] at hsmem
      rcases hsmem with rfl | hsm
      · exact (foldlMin_le (rest.map scoreKey) (scoreKey b)).1
      · exact (foldlMin_le (rest.map scoreKey) (scoreKey b)).2 s hsm
    · rcases foldlMax_mem (rest.map scoreKey) (scoreKey b) with h | h <;>
        simp [List.map_cons, h]
    · intro s hsmem
      rw [List.map_cons, List.mem_cons] at hsmem
      rcases hsmem with rfl | hsm
      · exact (le_foldlMax (rest.map scoreKey) (scoreKey b)).1
      · exact (le_foldlMax (rest.map scoreKey) (scoreKey b)).2 s hsm
    · apply foldlMax_of_all_le
      intro x hx
      obtain ⟨r, hrm, rfl⟩ := List.mem_map.mp hx
      exact hb r hrm

/-- C6 witness: the theorem applied to a concrete sorted two-route list;
the comparison is an `ok` record, not the error value. -/
theorem compare_routes_witness :
    RouteOptimizer.compare_routes [sr1, sr2] ≠
      ComparisonResult.error "No routes to compare" := by
  obtain ⟨mn, mx, heq, -, -, -, -, -⟩ :=
    (compare_routes_spec [sr1, sr2] (by decide)).2 sr1 [sr2] rfl
  rw [heq]
  exact fun hcon => ComparisonResult.noConfusion hcon

end Traffic
